import Mathlib

/-!
Verification of the Alaska Airlines waitlist tracker's core engine against a
shallow embedding of its source.

The embedding models:
* `app/lib/rate-limiter.ts` — the per-flight-key scrape rate limiter;
* `app/lib/db-utils.ts` (elite-status tracker) — `determineEliteStatus` and
  `compareWaitlists`;
* `flight-utils` — `parseFlightSegments` and `parseWaitlistForSegment`;
* `app/lib/waitlist.ts` / the cached variant of `trackWaitlist` — the
  cache-or-fetch pipeline, modelled as a pure function of an environment
  describing the browser / database interactions, returning the result
  together with a trace of observable effects;
* the `POST /api/trackWaitlist` route handler's rate-limit gate.

Machine integers are modelled as `Int` (JS numbers used here are integral
millisecond timestamps and small counts); fallible steps return `Except` or
`Option`.
-/

/-! ## Rate limiter (`app/lib/rate-limiter.ts`) -/

/-- `intervalMs` of `RateLimiter`: 600000 ms (10 minutes). -/
def intervalMs : Int := 600000

/-- The JS `Map<string, number>` backing `lastScrapeTime`, as an association
list with first-match lookup. -/
def mapGet (m : List (String × Int)) (k : String) : Option Int :=
  match m with
  | [] => none
  | (k2, v) :: rest => if k2 = k then some v else mapGet rest k

/-- State of the `RateLimiter` class: the `lastScrapeTime` map. -/
structure RateLimiter where
  lastScrapeTime : List (String × Int)
deriving DecidableEq, Repr

/-- The freshly constructed singleton `rateLimiter` (empty map). -/
def emptyRateLimiter : RateLimiter := ⟨[]⟩

/-- `canScrape`: `(now - lastTime) >= this.intervalMs`, with
`lastScrapeTime.get(flightKey) || 0` defaulting to 0. `now` is the value of
`Date.now()` at the call. -/
def RateLimiter.canScrape (rl : RateLimiter) (flightKey : String) (now : Int) : Bool :=
  let lastTime := (mapGet rl.lastScrapeTime flightKey).getD 0
  now - lastTime ≥ intervalMs

/-- `getTimeUntilNextScrape`: `Math.max(0, intervalMs - timePassed)`. -/
def RateLimiter.getTimeUntilNextScrape (rl : RateLimiter) (flightKey : String) (now : Int) : Int :=
  let lastTime := (mapGet rl.lastScrapeTime flightKey).getD 0
  let timePassed := now - lastTime
  max 0 (intervalMs - timePassed)

/-- `recordScrape`: `lastScrapeTime.set(flightKey, Date.now())`. -/
def RateLimiter.recordScrape (rl : RateLimiter) (flightKey : String) (now : Int) : RateLimiter :=
  ⟨(flightKey, now) :: rl.lastScrapeTime.filter (fun p => p.1 != flightKey)⟩

/-- `clearLimit`: `lastScrapeTime.delete(flightKey)`. -/
def RateLimiter.clearLimit (rl : RateLimiter) (flightKey : String) : RateLimiter :=
  ⟨rl.lastScrapeTime.filter (fun p => p.1 != flightKey)⟩

/-- Well-formed limiter state at time `now`: every recorded timestamp is a
real past clock reading (non-negative, not in the future). Every state the
program reaches satisfies this, because entries are only written by
`recordScrape` with the then-current `Date.now()`. -/
def RateLimiter.wf (rl : RateLimiter) (now : Int) : Prop :=
  ∀ p ∈ rl.lastScrapeTime, 0 ≤ p.2 ∧ p.2 ≤ now

theorem mapGet_recordScrape_self (rl : RateLimiter) (k : String) (t : Int) :
    mapGet (rl.recordScrape k t).lastScrapeTime k = some t := by
  simp [RateLimiter.recordScrape, mapGet]

theorem mapGet_filter_ne (m : List (String × Int)) (k : String) :
    mapGet (m.filter (fun p => p.1 != k)) k = none := by
  induction m with
  | nil => rfl
  | cons hd tl ih =>
    by_cases h : hd.1 = k
    · simpa [List.filter, h] using ih
    · simp only [List.filter]
      rw [show (hd.1 != k) = true by simp [h]]
      simpa [mapGet, h] using ih

theorem mapGet_mem {m : List (String × Int)} {k : String} {v : Int}
    (h : mapGet m k = some v) : (k, v) ∈ m := by
  induction m with
  | nil => simp [mapGet] at h
  | cons hd tl ih =>
    rcases hd with ⟨k2, w⟩
    by_cases hk : k2 = k
    · subst hk
      simp [mapGet] at h
      subst h
      exact List.mem_cons_self _ _
    · simp [mapGet, hk] at h
      exact List.mem_cons_of_mem _ (ih h)

/-- C2: for every flight key `k`, `canScrape k` is false at every instant
less than `intervalMs` (600000 ms) after `recordScrape k`, true once at least
the interval has elapsed, true for a never-recorded key, and true immediately
after `clearLimit k` — the latter two at any real clock instant (one at or
after `intervalMs` = 1970-01-01T00:10:00Z, as every actual `Date.now()`
reading is). -/
theorem canScrape_spec (rl : RateLimiter) (k : String) (t now : Int) :
    ((rl.recordScrape k t).canScrape k now = false ↔ now - t < intervalMs) ∧
    ((rl.recordScrape k t).canScrape k now = true ↔ now - t ≥ intervalMs) ∧
    (mapGet rl.lastScrapeTime k = none → intervalMs ≤ now →
      rl.canScrape k now = true) ∧
    (intervalMs ≤ now → (rl.clearLimit k).canScrape k now = true) := by
  refine ⟨?_, ?_, ?_, ?_⟩
  · simp only [RateLimiter.canScrape, mapGet_recordScrape_self, Option.getD_some]
    constructor
    · intro h
      by_contra hlt
      simp only [not_lt] at hlt
      simp [hlt] at h
    · intro h
      simp [not_le.mpr h]
  · simp only [RateLimiter.canScrape, mapGet_recordScrape_self, Option.getD_some]
    constructor
    · intro h
      by_contra hlt
      simp only [ge_iff_le, not_le] at hlt
      simp [not_le.mpr hlt] at h
    · intro h
      simp [h]
  · intro hnone hnow
    simp [RateLimiter.canScrape, hnone]
    omega
  · intro hnow
    simp [RateLimiter.canScrape, RateLimiter.clearLimit, mapGet_filter_ne]
    omega

/-- Witness for C2 at concrete inputs: key recorded at t = 1000000; at
now = 1300000 (5 minutes later) scraping is blocked; at now = 1600000 it is
allowed; a never-recorded key and a cleared key are allowed at
now = 1600000. -/
theorem canScrape_spec_witness :
    (((emptyRateLimiter.recordScrape "AS100|2024-01-01" 1000000).canScrape
        "AS100|2024-01-01" 1300000 = false) ↔
      ((1300000 : Int) - 1000000 < intervalMs)) ∧
    (((emptyRateLimiter.recordScrape "AS100|2024-01-01" 1000000).canScrape
        "AS100|2024-01-01" 1600000 = true) ↔
      ((1600000 : Int) - 1000000 ≥ intervalMs)) ∧
    (emptyRateLimiter.canScrape "AS100|2024-01-01" 1600000 = true) ∧
    (((emptyRateLimiter.recordScrape "AS100|2024-01-01" 1000000).clearLimit
        "AS100|2024-01-01").canScrape "AS100|2024-01-01" 1600000 = true) := by
  obtain ⟨h1, h2, _, _⟩ :=
    canScrape_spec emptyRateLimiter "AS100|2024-01-01" 1000000 1300000
  obtain ⟨_, h2', h3, _⟩ :=
    canScrape_spec emptyRateLimiter "AS100|2024-01-01" 1000000 1600000
  obtain ⟨_, _, _, h4⟩ :=
    canScrape_spec (emptyRateLimiter.recordScrape "AS100|2024-01-01" 1000000)
      "AS100|2024-01-01" 1000000 1600000
  exact ⟨h1, h2', h3 (by decide) (by decide), h4 (by decide)⟩

/-- C9: at every instant of a well-formed state, `canScrape k` is true exactly
when `getTimeUntilNextScrape k` is 0, and `getTimeUntilNextScrape k` is
non-negative and at most `intervalMs`. -/
theorem canScrape_iff_timeUntil_zero (rl : RateLimiter) (k : String) (now : Int)
    (hwf : rl.wf now) (hnow : 0 ≤ now) :
    (rl.canScrape k now = true ↔ rl.getTimeUntilNextScrape k now = 0) ∧
    0 ≤ rl.getTimeUntilNextScrape k now ∧
    rl.getTimeUntilNextScrape k now ≤ intervalMs := by
  have hlast : 0 ≤ (mapGet rl.lastScrapeTime k).getD 0 ∧
      (mapGet rl.lastScrapeTime k).getD 0 ≤ now := by
    cases hmg : mapGet rl.lastScrapeTime k with
    | none => simpa using hnow
    | some v =>
      have := hwf _ (mapGet_mem hmg)
      simpa using this
  simp only [RateLimiter.canScrape, RateLimiter.getTimeUntilNextScrape,
    intervalMs, decide_eq_true_eq]
  omega

/-- Witness for C9: a state holding one key recorded at t = 1000000, queried
at now = 1200000. -/
theorem canScrape_iff_timeUntil_zero_witness :
    ((RateLimiter.mk [("AS100|2024-01-01", 1000000)]).canScrape
        "AS100|2024-01-01" 1200000 = true ↔
      (RateLimiter.mk [("AS100|2024-01-01", 1000000)]).getTimeUntilNextScrape
        "AS100|2024-01-01" 1200000 = 0) ∧
    0 ≤ (RateLimiter.mk [("AS100|2024-01-01", 1000000)]).getTimeUntilNextScrape
        "AS100|2024-01-01" 1200000 ∧
    (RateLimiter.mk [("AS100|2024-01-01", 1000000)]).getTimeUntilNextScrape
        "AS100|2024-01-01" 1200000 ≤ intervalMs :=
  canScrape_iff_timeUntil_zero (RateLimiter.mk [("AS100|2024-01-01", 1000000)])
    "AS100|2024-01-01" 1200000
    (by intro p hp; simp at hp; subst hp; exact ⟨by decide, by decide⟩)
    (by decide)

/-! ## Elite-status tracker (`app/lib/db-utils.ts` / elite-status-tracker) -/

/-- The `EliteStatus` enum. -/
inductive EliteStatus where
  | MVP
  | MVP_GOLD
  | MVP_GOLD_75K
deriving DecidableEq, Repr

/-- `determineEliteStatus`. `hoursBeforeDeparture` is a JS floating-point
hour count, modelled as a rational; the remaining parameters are carried
exactly as in the source signature (the body does not read them). -/
def determineEliteStatus (hoursBeforeDeparture : ℚ) (isNewAddition : Bool)
    (position : Nat) (previousStatuses : List (String × EliteStatus))
    (waitlistNames : List String) : EliteStatus :=
  if hoursBeforeDeparture ≥ 72 then EliteStatus.MVP_GOLD_75K
  else if hoursBeforeDeparture ≥ 48 then EliteStatus.MVP_GOLD
  else EliteStatus.MVP

/-- C5: the tier classifier returns `MVP_GOLD_75K` iff `h ≥ 72`, `MVP_GOLD`
iff `48 ≤ h < 72`, `MVP` iff `h < 48`; `h = 80, 50, 10` give the three tiers
and the boundaries 72 and 48 classify into the higher tier. -/
theorem determineEliteStatus_thresholds :
    (∀ (h : ℚ) (a : Bool) (p : Nat) (s : List (String × EliteStatus))
        (w : List String),
      (determineEliteStatus h a p s w = EliteStatus.MVP_GOLD_75K ↔ 72 ≤ h) ∧
      (determineEliteStatus h a p s w = EliteStatus.MVP_GOLD ↔
        48 ≤ h ∧ h < 72) ∧
      (determineEliteStatus h a p s w = EliteStatus.MVP ↔ h < 48)) ∧
    determineEliteStatus 80 false 0 [] [] = EliteStatus.MVP_GOLD_75K ∧
    determineEliteStatus 50 false 0 [] [] = EliteStatus.MVP_GOLD ∧
    determineEliteStatus 10 false 0 [] [] = EliteStatus.MVP ∧
    determineEliteStatus 72 false 0 [] [] = EliteStatus.MVP_GOLD_75K ∧
    determineEliteStatus 48 false 0 [] [] = EliteStatus.MVP_GOLD := by
  constructor
  · intro h a p s w
    unfold determineEliteStatus
    split_ifs with h1 h2 <;>
      refine ⟨?_, ?_, ?_⟩ <;> simp_all <;> first | linarith | intro _ <;> linarith
  · refine ⟨?_, ?_, ?_, ?_, ?_⟩ <;> simp [determineEliteStatus] <;> norm_num

/-- C6: `determineEliteStatus` is a function of `hoursBeforeDeparture` alone:
it is invariant under arbitrary changes of `isNewAddition`, `position`,
`previousStatuses` and `waitlistNames`. -/
theorem determineEliteStatus_only_hours (h : ℚ) (a₁ a₂ : Bool) (p₁ p₂ : Nat)
    (s₁ s₂ : List (String × EliteStatus)) (w₁ w₂ : List String) :
    determineEliteStatus h a₁ p₁ s₁ w₁ = determineEliteStatus h a₂ p₂ s₂ w₂ :=
  rfl

/-- One entry of `WaitlistDiff.reordered`. Positions are the raw JS
`indexOf` values. -/
structure ReorderEntry where
  passenger : String
  oldPosition : Int
  newPosition : Int
deriving DecidableEq, Repr

/-- The `WaitlistDiff` result shape. -/
structure WaitlistDiff where
  added : List String
  removed : List String
  reordered : List ReorderEntry
deriving DecidableEq, Repr

/-- JS `Array.prototype.indexOf`: 0-based index of the first occurrence,
-1 when absent. -/
def jsIndexOf (l : List String) (x : String) : Int :=
  match l with
  | [] => -1
  | y :: ys => if y = x then 0 else
      let r := jsIndexOf ys x
      if r = -1 then -1 else r + 1

/-- `compareWaitlists(oldNames, newNames)`. -/
def compareWaitlists (oldNames newNames : List String) : WaitlistDiff :=
  let added := newNames.filter (fun name => !(oldNames.contains name))
  let removed := oldNames.filter (fun name => !(newNames.contains name))
  let commonNames := newNames.filter (fun name => oldNames.contains name)
  let reordered := commonNames.filterMap (fun name =>
    let oldPos := jsIndexOf oldNames name
    let newPos := jsIndexOf newNames name
    if oldPos ≠ newPos then
      some ⟨name, oldPos, newPos⟩
    else
      none)
  ⟨added, removed, reordered⟩

/-- C8: diffing a passenger list against itself yields the empty diff. -/
theorem compareWaitlists_self (L : List String) :
    compareWaitlists L L = ⟨[], [], []⟩ := by
  unfold compareWaitlists
  have hadded : L.filter (fun name => !(L.contains name)) = [] := by
    rw [List.filter_eq_nil]
    intro a ha
    simp [ha]
  refine congrArg₂ (WaitlistDiff.mk · · _) hadded hadded |>.trans ?_
  have hre : ∀ M : List String,
      M.filterMap (fun name =>
        if jsIndexOf L name ≠ jsIndexOf L name then
          some (ReorderEntry.mk name (jsIndexOf L name) (jsIndexOf L name))
        else none) = [] := by
    intro M
    rw [List.filterMap_eq_nil]
    intro a _
    simp
  rw [hre]

/-! ## Page extractor (`flight-utils`: `parseFlightSegments`,
`parseWaitlistForSegment`)

The rendered page is modelled by the element texts and attributes the
extractor actually queries. -/

/-- JS `String.prototype.trim`, on explicit character lists so that it
evaluates by kernel reduction. -/
def jsTrim (s : String) : String :=
  ⟨((s.toList.dropWhile Char.isWhitespace).reverse.dropWhile
      Char.isWhitespace).reverse⟩

/-- `startsWithChars pat l`: `pat` is an initial run of `l`. -/
def startsWithChars : List Char → List Char → Bool
  | [], _ => true
  | _ :: _, [] => false
  | p :: ps, c :: cs => p == c && startsWithChars ps cs

/-- JS `String.prototype.includes` on explicit character lists. -/
def strContainsAux : List Char → List Char → Bool
  | [], pat => startsWithChars pat []
  | c :: rest, pat => startsWithChars pat (c :: rest) || strContainsAux rest pat

/-- JS `text.includes(pat)`. -/
def strContains (s pat : String) : Bool :=
  strContainsAux s.toList pat.toList

/-- JS `String.prototype.replace` with a string pattern: replaces the first
occurrence only. -/
def replaceFirstAux : List Char → List Char → List Char → List Char
  | [], _, _ => []
  | c :: rest, pat, repl =>
    if startsWithChars pat (c :: rest) then repl ++ (c :: rest).drop pat.length
    else c :: replaceFirstAux rest pat repl

/-- JS `s.replace(pat, repl)` (first occurrence). -/
def replaceFirst (s pat repl : String) : String :=
  ⟨replaceFirstAux s.toList pat.toList repl.toList⟩

/-- Numeric value of a digit run (the `parseInt` of a match of `/\d+/`). -/
def digitsToNat (l : List Char) : Nat :=
  l.foldl (fun acc c => acc * 10 + (c.toNat - '0'.toNat)) 0

/-- The first maximal digit run of a character list, if any. -/
def firstDigitRun : List Char → Option (List Char)
  | [] => none
  | c :: rest =>
    if c.isDigit then some (c :: rest.takeWhile Char.isDigit)
    else firstDigitRun rest

/-- JS `parseInt(text.match(/\d+/)[0])` when the match exists: the first
embedded integer of `s`. `none` models a null match (where the source's
unguarded `[0]` throws a `TypeError`). -/
def firstInt (s : String) : Option Nat :=
  (firstDigitRun s.toList).map digitsToNat

/-- The regex `/^[A-Z]{2,3}\/[A-Z]$/` of the passenger-name filter. -/
def isAlaskaName (s : String) : Bool :=
  match s.toList with
  | [a, b, sl, c] => a.isUpper && b.isUpper && sl == '/' && c.isUpper
  | [a, b, c2, sl, c] => a.isUpper && b.isUpper && c2.isUpper && sl == '/' && c.isUpper
  | _ => false

/-- The `waitlistInfo` record built by `parseWaitlistForSegment`. -/
structure WaitlistInfo where
  capacity : Option Nat
  available : Option Nat
  checkedIn : Option Nat
  names : List String
deriving DecidableEq, Repr

/-- One `.waitlist-single-container` inside an accordion: the text of its
`h4` heading, the texts of its `.waitlist-text-container span` elements in
document order, and the `td` texts of each `table.auro_table tbody tr` row. -/
structure Container where
  h4 : String
  spans : List String
  rows : List (List String)
deriving DecidableEq, Repr

/-- One `.accordion-container-fs` element. -/
structure Accordion where
  containers : List Container
deriving DecidableEq, Repr

/-- The attributes read off one `auro-flight` element. -/
structure FlightAttrs where
  flights : Option String
  departurestation : Option String
  arrivalstation : Option String
  departuretime : Option String
  arrivaltime : Option String
deriving DecidableEq, Repr

/-- The rendered document as the extractor sees it: one entry per
`.main-row-status` element (with its `auro-flight` child, if any), the text
of the first `.timestamp` element, and the `.accordion-container-fs`
elements. -/
structure Doc where
  mainRows : List (Option FlightAttrs)
  timestampText : String
  accordions : List Accordion
deriving DecidableEq, Repr

/-- JS string truthiness of a possibly-undefined string. -/
def truthy : Option String → Bool
  | none => false
  | some s => s ≠ ""

/-- JS `x || 'Unknown'`. -/
def orUnknown : Option String → String
  | none => "Unknown"
  | some s => if s = "" then "Unknown" else s

/-- A parsed flight segment (the `FlightSegment` class of `flight-utils`). -/
structure FlightSegment where
  flightNumber : String
  date : String
  origin : String
  destination : String
  departureTime : String
  arrivalTime : String
deriving DecidableEq, Repr

/-- `parseFlightSegments($)`: one segment per `.main-row-status` having an
`auro-flight` child whose flight number and the page date are both truthy;
other fields fall back to `'Unknown'`. -/
def parseFlightSegments (doc : Doc) : List FlightSegment :=
  doc.mainRows.filterMap (fun mr =>
    match mr with
    | none => none
    | some attrs =>
      let flightNumber := attrs.flights.map (fun s => replaceFirst s "AS " "")
      let origin := attrs.departurestation
      let destination := attrs.arrivalstation
      let departureTime := attrs.departuretime.bind (fun s => (s.splitOn " ").get? 1)
      let arrivalTime := attrs.arrivaltime.bind (fun s => (s.splitOn " ").get? 1)
      let date := jsTrim doc.timestampText
      if truthy flightNumber && date ≠ "" then
        some ⟨flightNumber.getD "", date, orUnknown origin, orUnknown destination,
          orUnknown departureTime, orUnknown arrivalTime⟩
      else
        none)

/-- The span-processing step of `parseWaitlistForSegment`: on a span whose
(trimmed) text contains a label word, store its first embedded integer; if
the text has no digit, `text.match(/\d+/)` is null and the source's `[0]`
throws — modelled as `Except.error`. -/
def parseCapacitySpan (info : WaitlistInfo) (text0 : String) : Except String WaitlistInfo :=
  let text := jsTrim text0
  if strContains text "capacity" then
    match firstInt text with
    | some n => .ok { info with capacity := some n }
    | none => .error "TypeError: Cannot read properties of null (reading 0)"
  else if strContains text "Available" then
    match firstInt text with
    | some n => .ok { info with available := some n }
    | none => .error "TypeError: Cannot read properties of null (reading 0)"
  else if strContains text "Checked-in" then
    match firstInt text with
    | some n => .ok { info with checkedIn := some n }
    | none => .error "TypeError: Cannot read properties of null (reading 0)"
  else
    .ok info

/-- The per-row name extraction: second `td` of the row (empty text when the
row is short), trimmed, kept when non-empty and matching the name regex. -/
def parseNameRow (row : List String) : Option String :=
  let name := jsTrim ((row.get? 1).getD "")
  if name ≠ "" && isAlaskaName name then some name else none

/-- `parseWaitlistForSegment($, segmentIndex)`; `.ok none` is the source's
`null` (no accordion for the segment), `.error` a thrown `TypeError`. -/
def parseWaitlistForSegment (doc : Doc) (segmentIndex : Nat) :
    Except String (Option WaitlistInfo) :=
  match doc.accordions.get? segmentIndex with
  | none => .ok none
  | some accordion =>
    let upgradeContainers := accordion.containers.filter
      (fun c => jsTrim c.h4 == "Upgrade requests")
    let info0 : WaitlistInfo := ⟨none, none, none, []⟩
    match upgradeContainers with
    | [] => .ok (some info0)
    | container :: _ =>
      match List.foldlM parseCapacitySpan info0 container.spans with
      | .error e => .error e
      | .ok info1 =>
        let names := container.rows.filterMap parseNameRow
        .ok (some { info1 with names := names })

/-- The trimmed span text contains the capacity label word. -/
def labelCap (s : String) : Bool := strContains (jsTrim s) "capacity"

/-- The trimmed span text contains the available label word. -/
def labelAvail (s : String) : Bool := strContains (jsTrim s) "Available"

/-- The trimmed span text contains the checked-in label word. -/
def labelChecked (s : String) : Bool := strContains (jsTrim s) "Checked-in"

/-- A span is well formed when it carries no label word, or carries an
embedded integer: exactly the condition under which the source's
`text.match(/\d+/)[0]` does not dereference null. -/
def spanWF (s : String) : Bool :=
  (!(labelCap s || labelAvail s || labelChecked s)) || (firstInt (jsTrim s)).isSome

theorem parseCapacitySpan_ok (info : WaitlistInfo) (s : String)
    (hwf : spanWF s = true) :
    ∃ info1, parseCapacitySpan info s = .ok info1 ∧
      (labelCap s = false → info1.capacity = info.capacity) ∧
      (labelAvail s = false → info1.available = info.available) ∧
      (labelChecked s = false → info1.checkedIn = info.checkedIn) := by
  unfold spanWF at hwf
  unfold parseCapacitySpan
  by_cases h1 : labelCap s
  · simp only [h1, Bool.true_or, Bool.not_true, Bool.false_or] at hwf
    obtain ⟨n, hn⟩ := Option.isSome_iff_exists.mp hwf
    unfold labelCap at h1
    simp only [h1, if_true, hn]
    exact ⟨_, rfl, by simp [labelCap, h1], by intro _; rfl, by intro _; rfl⟩
  · by_cases h2 : labelAvail s
    · simp only [h2, Bool.or_true, Bool.true_or, Bool.not_true, Bool.false_or] at hwf
      obtain ⟨n, hn⟩ := Option.isSome_iff_exists.mp hwf
      unfold labelCap at h1
      unfold labelAvail at h2
      simp only [Bool.not_eq_true] at h1
      simp only [h1, if_false, h2, if_true, hn]
      exact ⟨_, rfl, by intro _; rfl, by simp [labelAvail, h2], by intro _; rfl⟩
    · by_cases h3 : labelChecked s
      · simp only [h3, Bool.or_true, Bool.not_true, Bool.false_or] at hwf
        obtain ⟨n, hn⟩ := Option.isSome_iff_exists.mp hwf
        unfold labelCap at h1
        unfold labelAvail at h2
        unfold labelChecked at h3
        simp only [Bool.not_eq_true] at h1 h2
        simp only [h1, if_false, h2, h3, if_true, hn]
        exact ⟨_, rfl, by intro _; rfl, by intro _; rfl, by simp [labelChecked, h3]⟩
      · unfold labelCap at h1
        unfold labelAvail at h2
        unfold labelChecked at h3
        simp only [Bool.not_eq_true] at h1 h2 h3
        simp only [h1, h2, h3, if_false]
        exact ⟨info, rfl, by intro _; rfl, by intro _; rfl, by intro _; rfl⟩

theorem foldSpans_ok (spans : List String) (info : WaitlistInfo)
    (hwf : ∀ s ∈ spans, spanWF s = true) :
    ∃ info1, List.foldlM parseCapacitySpan info spans = .ok info1 ∧
      ((∀ s ∈ spans, labelCap s = false) → info1.capacity = info.capacity) ∧
      ((∀ s ∈ spans, labelAvail s = false) → info1.available = info.available) ∧
      ((∀ s ∈ spans, labelChecked s = false) → info1.checkedIn = info.checkedIn) := by
  induction spans generalizing info with
  | nil => exact ⟨info, rfl, by intro _; rfl, by intro _; rfl, by intro _; rfl⟩
  | cons s rest ih =>
    obtain ⟨infoS, hS, hSc, hSa, hSk⟩ :=
      parseCapacitySpan_ok info s (hwf s (List.mem_cons_self _ _))
    obtain ⟨info1, hF, hFc, hFa, hFk⟩ :=
      ih infoS (fun t ht => hwf t (List.mem_cons_of_mem _ ht))
    refine ⟨info1, ?_, ?_, ?_, ?_⟩
    · simpa [List.foldlM, hS] using hF
    · intro hall
      rw [hFc (fun t ht => hall t (List.mem_cons_of_mem _ ht))]
      exact hSc (hall s (List.mem_cons_self _ _))
    · intro hall
      rw [hFa (fun t ht => hall t (List.mem_cons_of_mem _ ht))]
      exact hSa (hall s (List.mem_cons_self _ _))
    · intro hall
      rw [hFk (fun t ht => hall t (List.mem_cons_of_mem _ ht))]
      exact hSk (hall s (List.mem_cons_self _ _))

/-- C7 (amended): extraction degrades missing fields instead of aborting —
with the accordion present, a missing upgrade panel yields the all-null,
empty-names record; with the panel present and every label-bearing span
carrying an embedded integer, extraction succeeds and each absent labeled
field is null and an absent passenger table gives the empty name list. (The
original claim's further clause that a label span *without* an embedded
integer also cannot abort is false — see the counterexample theorem.) -/
theorem parseWaitlistForSegment_defensive (doc : Doc) (i : Nat) (acc : Accordion)
    (hacc : doc.accordions.get? i = some acc) :
    (acc.containers.filter (fun c => jsTrim c.h4 == "Upgrade requests") = [] →
      parseWaitlistForSegment doc i = .ok (some ⟨none, none, none, []⟩)) ∧
    (∀ container rest,
      acc.containers.filter (fun c => jsTrim c.h4 == "Upgrade requests") =
        container :: rest →
      (∀ s ∈ container.spans, spanWF s = true) →
      ∃ info, parseWaitlistForSegment doc i = .ok (some info) ∧
        ((∀ s ∈ container.spans, labelCap s = false) → info.capacity = none) ∧
        ((∀ s ∈ container.spans, labelAvail s = false) → info.available = none) ∧
        ((∀ s ∈ container.spans, labelChecked s = false) → info.checkedIn = none) ∧
        (container.rows = [] → info.names = [])) := by
  constructor
  · intro hnone
    unfold parseWaitlistForSegment
    rw [hacc]
    simp only [hnone]
  · intro container rest hcons hwf
    obtain ⟨info1, hF, hFc, hFa, hFk⟩ := foldSpans_ok container.spans ⟨none, none, none, []⟩ hwf
    refine ⟨{ info1 with names := container.rows.filterMap parseNameRow }, ?_, ?_, ?_, ?_, ?_⟩
    · unfold parseWaitlistForSegment
      rw [hacc]
      simp only [hcons, hF]
    · intro hall
      simpa using hFc hall
    · intro hall
      simpa using hFa hall
    · intro hall
      simpa using hFk hall
    · intro hrows
      simp [hrows]

/-- Witness for the amended C7 at a concrete document: the upgrade panel is
present with only a checked-in span and no passenger table; capacity and
available degrade to null and the name list is empty. -/
theorem parseWaitlistForSegment_defensive_witness :
    ∃ info,
      parseWaitlistForSegment
        ⟨[], "", [⟨[⟨"Upgrade requests", ["Checked-in: 3"], []⟩]⟩]⟩ 0 =
        .ok (some info) ∧
      info.capacity = none ∧ info.available = none ∧ info.names = [] := by
  obtain ⟨-, h2⟩ := parseWaitlistForSegment_defensive
    ⟨[], "", [⟨[⟨"Upgrade requests", ["Checked-in: 3"], []⟩]⟩]⟩ 0
    ⟨[⟨"Upgrade requests", ["Checked-in: 3"], []⟩]⟩ rfl
  obtain ⟨info, hres, hcap, havail, _, hrows⟩ :=
    h2 ⟨"Upgrade requests", ["Checked-in: 3"], []⟩ [] (by decide) (by decide)
  exact ⟨info, hres, hcap (by decide), havail (by decide), hrows rfl⟩

/-- Counterexample for C7 as stated: a present upgrade panel holding a span
whose text contains the label word `capacity` but no embedded integer makes
`parseWaitlistForSegment` throw a `TypeError` (the source dereferences the
null result of `text.match(/\d+/)`), instead of degrading the field. -/
theorem parseWaitlistForSegment_throws_on_digitless_label :
    parseWaitlistForSegment
      ⟨[], "", [⟨[⟨"Upgrade requests", ["First class capacity"], []⟩]⟩]⟩ 0 =
      .error "TypeError: Cannot read properties of null (reading 0)" := by
  rfl

/-! ## Challenge handler (`app/lib/browser-utils.ts`:
`handlePressAndHoldVerification`)

One loop iteration interacts with the page; the environment determines its
outcome: the `#px-captcha` element is absent, its bounding box is absent,
the hold succeeds (the captcha disappears), or the iteration throws (denial
or timeout). -/

/-- Outcome of one iteration of the verification loop, as decided by the
page. -/
inductive AttemptOutcome where
  | noButton
  | noBoundingBox
  | success
  | failure
deriving DecidableEq, Repr

/-- The `while (retries < maxRetries)` loop: first component is the returned
boolean, second the number of iterations (attempts) performed. `outcomes n`
is the page's behaviour on the iteration with `retries = n`. -/
def pahGo (outcomes : Nat → AttemptOutcome) : Nat → Nat → Bool × Nat
  | 0, n => (false, n)
  | rem + 1, n =>
    match outcomes n with
    | .noButton => (false, n + 1)
    | .noBoundingBox => (false, n + 1)
    | .success => (true, n + 1)
    | .failure => pahGo outcomes rem (n + 1)

/-- `handlePressAndHoldVerification(page, maxRetries)` (the source defaults
`maxRetries` to 2): result and number of attempts performed. -/
def handlePressAndHoldVerification (outcomes : Nat → AttemptOutcome)
    (maxRetries : Nat) : Bool × Nat :=
  pahGo outcomes maxRetries 0

/-! ## `trackWaitlist` (`app/lib/waitlist.ts` and its cached revision)

The pipeline is modelled as a pure function of an environment fixing every
external interaction (clock, database contents, browser behaviour, page
document); it returns the `WaitlistResult` together with the trace of
observable side effects. -/

/-- Observable effects of one `trackWaitlist` / route invocation. -/
inductive Event where
  | dbRead
  | pageCreated
  | networkFetch
  | limiterCheck
  | limiterRecord
  | dbSaveSegment (i : Nat)
  | dbSaveSnapshot (i : Nat)
  | pageClosed
deriving DecidableEq, Repr

/-- The `waitlistInfo` sub-object of a reported segment. -/
structure FirstClassInfo where
  capacity : Option Nat
  available : Option Nat
  checkedIn : Option Nat
deriving DecidableEq, Repr

/-- The `WaitlistSegment` result shape (optional fields are `none` when the
source leaves them `undefined` / `null`). -/
structure WaitlistSegment where
  flightNumber : String
  date : String
  origin : String
  destination : String
  departureTime : String
  arrivalTime : String
  position : Option Int
  totalWaitlisted : Option Int
  names : Option (List String)
  error : Option String
  waitlistInfo : Option FirstClassInfo
deriving DecidableEq, Repr

/-- The `WaitlistResult` shape. -/
structure WaitlistResult where
  segments : List WaitlistSegment
  error : Option String
deriving DecidableEq, Repr

/-- A row of `getLatestWaitlistData` (one per segment, latest snapshot).
`waitlist_names` holds the raw JSON text (`none` models a SQL NULL from the
LEFT JOIN); `snapshot_time` is the epoch-millisecond value of
`new Date(row.snapshot_time).getTime()`. -/
structure DatabaseRecord where
  flight_number : String
  flight_date : String
  origin : Option String
  destination : Option String
  departure_time : Option String
  arrival_time : Option String
  waitlist_names : Option String
  first_class_capacity : Option Nat
  first_class_available : Option Nat
  first_class_checked_in : Option Nat
  snapshot_time : Int
deriving DecidableEq, Repr

/-- `names.findIndex(name => name === userName)` then
`nameIndex !== -1 ? nameIndex + 1 : null`. -/
def computePosition (names : List String) (userName : String) : Option Int :=
  let nameIndex := jsIndexOf names userName
  if nameIndex != -1 then some (nameIndex + 1) else none

/-- The environment of one `trackWaitlist` call: the clock, the database
contents, JS library behaviour on the strings at hand and the browser's
behaviour. -/
structure TrackEnv where
  now : Int
  jsDateParse : String → Option (Nat × Nat × Nat)
  jsonParseNames : String → Option (List String)
  latestWaitlistData : List DatabaseRecord
  createPage : Except String Unit
  navigation : Nat → Except String Unit
  needsVerification : Bool
  challengeOutcomes : Nat → AttemptOutcome
  pageContent : Option Doc
  saveFlightIds : Nat → Option Nat

/-- The regex test `/^\d{4}-\d{2}-\d{2}$/.test(dateStr)`. -/
def isYMD (s : String) : Bool :=
  match s.toList with
  | [a, b, c, d, h1, e, f, h2, g, h] =>
    a.isDigit && b.isDigit && c.isDigit && d.isDigit && h1 == '-' &&
    e.isDigit && f.isDigit && h2 == '-' && g.isDigit && h.isDigit
  | _ => false

/-- `String(n).padStart(2, '0')`. -/
def pad2 (n : Nat) : String :=
  let s := toString n
  if s.length < 2 then "0" ++ s else s

/-- `convertDateFormat(dateStr)`: already-`YYYY-MM-DD` strings pass through;
otherwise `new Date(dateStr)` (the environment's JS date parser) either
yields year/month/day or is invalid, which throws. -/
def convertDateFormat (env : TrackEnv) (dateStr : String) : Except String String :=
  if isYMD dateStr then .ok dateStr
  else
    match env.jsDateParse dateStr with
    | none => .error ("Invalid date format: " ++ dateStr)
    | some (y, m, d) => .ok (toString y ++ "-" ++ pad2 m ++ "-" ++ pad2 d)

/-- `record.waitlist_names || '[]'` then `JSON.parse`: a NULL column parses
as the empty list; otherwise the environment's JSON parser applies (`none`
models a throw on malformed text). -/
def parseCachedNames (env : TrackEnv) (r : DatabaseRecord) : Option (List String) :=
  match r.waitlist_names with
  | none => some []
  | some txt => env.jsonParseNames txt

/-- One segment of the cache-hit result: built from a `DatabaseRecord`, with
the per-record `try/catch` turning a JSON-parse throw into an error
segment. -/
def cachedSegment (env : TrackEnv) (userName : String) (r : DatabaseRecord) :
    WaitlistSegment :=
  match parseCachedNames env r with
  | some names =>
    { flightNumber := r.flight_number
      date := r.flight_date
      origin := orUnknown r.origin
      destination := orUnknown r.destination
      departureTime := orUnknown r.departure_time
      arrivalTime := orUnknown r.arrival_time
      position := computePosition names userName
      totalWaitlisted := some (names.length : Int)
      names := some names
      error := none
      waitlistInfo := some ⟨r.first_class_capacity, r.first_class_available,
        r.first_class_checked_in⟩ }
  | none =>
    { flightNumber := r.flight_number
      date := r.flight_date
      origin := "Unknown"
      destination := "Unknown"
      departureTime := "Unknown"
      arrivalTime := "Unknown"
      position := none
      totalWaitlisted := none
      names := none
      error := some "Error parsing cached data"
      waitlistInfo := none }

/-- The database-first block of the cached `trackWaitlist`: `some segments`
is the early `return { segments }` (cache hit); `none` falls through to the
fetch (cache miss, stale data, or a throw caught by the surrounding
`catch`). The returned trace records whether `getLatestWaitlistData` ran. -/
def cacheCheck (env : TrackEnv) (flightDate userName : String) :
    Option (List WaitlistSegment) × List Event :=
  match convertDateFormat env flightDate with
  | .error _ => (none, [])
  | .ok _ =>
    let cachedData := env.latestWaitlistData
    match cachedData with
    | [] => (none, [Event.dbRead])
    | latestSnapshot :: _ =>
      if latestSnapshot.snapshot_time > env.now - 5 * 60 * 1000 then
        (some (cachedData.map (cachedSegment env userName)), [Event.dbRead])
      else
        (none, [Event.dbRead])

/-- The navigation retry loop of the cached revision (`maxRetries = 3`,
rethrowing the last error). -/
def navRetryAux (nav : Nat → Except String Unit) : Nat → Nat → Except String Unit
  | 0, _ => .error "Unknown error"
  | fuel + 1, i =>
    match nav i with
    | .ok _ => .ok ()
    | .error e => if fuel = 0 then .error e else navRetryAux nav fuel (i + 1)

/-- Navigation with up to 3 attempts. -/
def navRetry (nav : Nat → Except String Unit) : Except String Unit :=
  navRetryAux nav 3 0

/-- JS truthiness of `flightId` (`null` and `0` are falsy). -/
def natTruthy : Option Nat → Bool
  | none => false
  | some n => n ≠ 0

/-- The segment-processing loop body of the cached revision, per segment
`i`, including its per-segment `try/catch`. Returns the reported segment and
the persistence events performed. -/
def processSegmentCached (env : TrackEnv) (userName : String) (doc : Doc)
    (i : Nat) (segment : FlightSegment) : WaitlistSegment × List Event :=
  match parseWaitlistForSegment doc i with
  | .error _ =>
    ({ flightNumber := segment.flightNumber, date := segment.date,
       origin := segment.origin, destination := segment.destination,
       departureTime := segment.departureTime, arrivalTime := segment.arrivalTime,
       position := none, totalWaitlisted := none, names := none,
       error := some "Error processing segment", waitlistInfo := none }, [])
  | .ok waitlistInfo =>
    match convertDateFormat env segment.date with
    | .error _ =>
      ({ flightNumber := segment.flightNumber, date := segment.date,
         origin := segment.origin, destination := segment.destination,
         departureTime := segment.departureTime, arrivalTime := segment.arrivalTime,
         position := none, totalWaitlisted := none, names := none,
         error := some "Error processing segment", waitlistInfo := none }, [])
    | .ok _ =>
      let flightId := env.saveFlightIds i
      let snapshotEvents :=
        if natTruthy flightId && waitlistInfo.isSome then [Event.dbSaveSnapshot i]
        else []
      let position :=
        match waitlistInfo with
        | some wi => computePosition wi.names userName
        | none => none
      let totalWaitlisted :=
        match waitlistInfo with
        | some wi => some (wi.names.length : Int)
        | none => none
      ({ flightNumber := segment.flightNumber, date := segment.date,
         origin := segment.origin, destination := segment.destination,
         departureTime := segment.departureTime, arrivalTime := segment.arrivalTime,
         position := position, totalWaitlisted := totalWaitlisted,
         names := some ((waitlistInfo.map WaitlistInfo.names).getD []),
         error := none,
         waitlistInfo := waitlistInfo.map (fun wi =>
           ⟨wi.capacity, wi.available, wi.checkedIn⟩) },
       Event.dbSaveSegment i :: snapshotEvents)

/-- Segment loop of the cached revision over the parsed segments. -/
def processSegmentsCached (env : TrackEnv) (userName : String) (doc : Doc) :
    Nat → List FlightSegment → List WaitlistSegment × List Event
  | _, [] => ([], [])
  | i, seg :: rest =>
    let (w, evs) := processSegmentCached env userName doc i seg
    let (ws, evs2) := processSegmentsCached env userName doc (i + 1) rest
    (w :: ws, evs ++ evs2)

/-- The `try` body of the cached revision's fetch path. -/
def freshFetchCached (env : TrackEnv) (flightDate userName : String) :
    Except String (List WaitlistSegment) × List Event :=
  match env.createPage with
  | .error e => (.error e, [])
  | .ok _ =>
    match convertDateFormat env flightDate with
    | .error e => (.error e, [Event.pageCreated])
    | .ok _ =>
      match navRetry env.navigation with
      | .error e => (.error e, [Event.pageCreated, Event.networkFetch])
      | .ok _ =>
        if env.needsVerification &&
            !(handlePressAndHoldVerification env.challengeOutcomes 2).1 then
          (.error "Failed to complete verification",
           [Event.pageCreated, Event.networkFetch])
        else
          match env.pageContent with
          | none => (.error "Failed to get page content",
              [Event.pageCreated, Event.networkFetch])
          | some doc =>
            match parseFlightSegments doc with
            | [] => (.error "No flight segments found",
                [Event.pageCreated, Event.networkFetch])
            | seg :: rest =>
              let (ws, evs) := processSegmentsCached env userName doc 0 (seg :: rest)
              (.ok ws, [Event.pageCreated, Event.networkFetch] ++ evs)

/-- The error-result segment assembled in the top-level `catch`. -/
def errorPlaceholder (flightNumber flightDate msg : String) : WaitlistSegment :=
  { flightNumber := flightNumber, date := flightDate,
    origin := "Unknown", destination := "Unknown",
    departureTime := "Unknown", arrivalTime := "Unknown",
    position := none, totalWaitlisted := none, names := none,
    error := some msg, waitlistInfo := none }

/-- `trackWaitlist(flightNumber, flightDate, userName, forceRefresh)` — the
cached revision: database-first, then fetch, with the top-level
`catch`/`finally`. -/
def trackWaitlist (env : TrackEnv) (flightNumber flightDate userName : String)
    (forceRefresh : Bool) : WaitlistResult × List Event :=
  let cacheResult :=
    if forceRefresh then (none, []) else cacheCheck env flightDate userName
  match cacheResult with
  | (some segments, evs) => ({ segments := segments, error := none }, evs)
  | (none, evs) =>
    let (body, fevs) := freshFetchCached env flightDate userName
    let closeEvents :=
      match env.createPage with
      | .ok _ => [Event.pageClosed]
      | .error _ => []
    match body with
    | .ok segments =>
      ({ segments := segments, error := none }, evs ++ fevs ++ closeEvents)
    | .error msg =>
      ({ segments := [errorPlaceholder flightNumber flightDate msg],
         error := some msg }, evs ++ fevs ++ closeEvents)

/-- The segment loop of the original `app/lib/waitlist.ts` `trackWaitlist`
(no per-segment `try/catch`: a parse throw aborts the loop and reaches the
top-level `catch`). -/
def processSegmentsV1 (env : TrackEnv) (userName : String) (doc : Doc) :
    Nat → List FlightSegment → Except String (List WaitlistSegment) × List Event
  | _, [] => (.ok [], [])
  | i, segment :: rest =>
    match parseWaitlistForSegment doc i with
    | .error e => (.error e, [])
    | .ok waitlistInfo =>
      let flightId := env.saveFlightIds i
      let evs := Event.dbSaveSegment i ::
        (if natTruthy flightId && waitlistInfo.isSome then [Event.dbSaveSnapshot i]
         else [])
      let position :=
        match waitlistInfo with
        | some wi => computePosition wi.names userName
        | none => none
      let totalWaitlisted :=
        match waitlistInfo with
        | some wi => some (wi.names.length : Int)
        | none => none
      let w : WaitlistSegment :=
        { flightNumber := segment.flightNumber, date := segment.date,
          origin := segment.origin, destination := segment.destination,
          departureTime := segment.departureTime,
          arrivalTime := segment.arrivalTime,
          position := position, totalWaitlisted := totalWaitlisted,
          names := none, error := none, waitlistInfo := none }
      match processSegmentsV1 env userName doc (i + 1) rest with
      | (.error e, evs2) => (.error e, evs ++ evs2)
      | (.ok ws, evs2) => (.ok (w :: ws), evs ++ evs2)

/-- The `try` body of the original `trackWaitlist`: create page, navigate
once, handle the challenge, parse, process. A failed `page.content()` is
caught by `getPageContent` and yields the empty document. -/
def freshFetchV1 (env : TrackEnv) (userName : String) :
    Except String (List WaitlistSegment) × List Event :=
  match env.createPage with
  | .error e => (.error e, [])
  | .ok _ =>
    match env.navigation 0 with
    | .error e => (.error e, [Event.pageCreated, Event.networkFetch])
    | .ok _ =>
      if env.needsVerification &&
          !(handlePressAndHoldVerification env.challengeOutcomes 2).1 then
        (.error "Failed to complete verification",
         [Event.pageCreated, Event.networkFetch])
      else
        let doc := env.pageContent.getD ⟨[], "", []⟩
        match parseFlightSegments doc with
        | [] => (.error "No flight segments found",
            [Event.pageCreated, Event.networkFetch])
        | seg :: rest =>
          match processSegmentsV1 env userName doc 0 (seg :: rest) with
          | (.error e, evs) =>
            (.error e, [Event.pageCreated, Event.networkFetch] ++ evs)
          | (.ok ws, evs) =>
            (.ok ws, [Event.pageCreated, Event.networkFetch] ++ evs)

/-- The original `trackWaitlist(flightNumber, flightDate, userName)` of
`app/lib/waitlist.ts`, with its `catch` and `finally`. -/
def trackWaitlistV1 (env : TrackEnv) (flightNumber flightDate userName : String) :
    WaitlistResult × List Event :=
  let (body, fevs) := freshFetchV1 env userName
  let closeEvents :=
    match env.createPage with
    | .ok _ => [Event.pageClosed]
    | .error _ => []
  match body with
  | .ok segments =>
    ({ segments := segments, error := none }, fevs ++ closeEvents)
  | .error msg =>
    ({ segments := [errorPlaceholder flightNumber flightDate msg],
       error := some msg }, fevs ++ closeEvents)

/-! ## The `POST /api/trackWaitlist` route handler -/

/-- Responses of the route handler. -/
inductive RouteResponse where
  | badRequest
  | rateLimited (waitTimeMs : Int)
  | ok (result : WaitlistResult)
deriving DecidableEq, Repr

/-- One request to the route: its body fields (empty string = missing,
i.e. falsy) and the environment of the call. -/
structure PostRequest where
  flightNumber : String
  flightDate : String
  userName : String
  forceRefresh : Bool
  env : TrackEnv

/-- The `POST` handler of `app/api/trackWaitlist/route.ts`: field check,
rate-limit gate, then `trackWaitlist`. The handler reads the limiter but
never calls `recordScrape` or `clearLimit`, so the limiter state is
returned unchanged. -/
def POST (rl : RateLimiter) (req : PostRequest) : RouteResponse × RateLimiter :=
  if req.flightNumber = "" || req.flightDate = "" || req.userName = "" then
    (.badRequest, rl)
  else
    let flightKey := req.flightNumber ++ "|" ++ req.flightDate
    if !(rl.canScrape flightKey req.env.now) then
      (.rateLimited (rl.getTimeUntilNextScrape flightKey req.env.now), rl)
    else
      (.ok (trackWaitlist req.env req.flightNumber req.flightDate req.userName
        req.forceRefresh).1, rl)

/-- Sequential processing of requests through the route, threading the
module-level `rateLimiter` singleton. -/
def runPosts : RateLimiter → List PostRequest → List RouteResponse
  | _, [] => []
  | rl, req :: rest =>
    let (resp, rl2) := POST rl req
    resp :: runPosts rl2 rest

/-! ## Reported-position correctness (C4) -/

theorem jsIndexOf_spec (l : List String) (x : String) :
    (x ∈ l → jsIndexOf l x = (l.indexOf x : Int)) ∧
    (x ∉ l → jsIndexOf l x = -1) := by
  induction l with
  | nil => simp [jsIndexOf]
  | cons y ys ih =>
    by_cases hyx : y = x
    · subst hyx
      constructor
      · intro _
        simp [jsIndexOf, List.indexOf_cons]
      · intro hmem
        exact absurd (List.mem_cons_self _ _) hmem
    · have hidx : (y :: ys).indexOf x = ys.indexOf x + 1 := by
        simp [List.indexOf_cons, hyx]
      constructor
      · intro hmem
        have hx : x ∈ ys := by
          rcases List.mem_cons.mp hmem with h | h
          · exact absurd h.symm hyx
          · exact h
        have hr := ih.1 hx
        have hne : (ys.indexOf x : Int) ≠ -1 := by omega
        simp only [jsIndexOf, hyx, if_false, hidx]
        rw [hr]
        simp only [hne, if_false]
        push_cast
        ring
      · intro hmem
        have hx : x ∉ ys := fun h => hmem (List.mem_cons_of_mem _ h)
        have hr := ih.2 hx
        simp only [jsIndexOf, hyx, if_false]
        rw [hr]
        simp

/-- C4: the reported position is `indexOf(userName) + 1` (1-based rank of
the first occurrence, in source order) when the user occurs in the ordered
passenger list, and null otherwise — both for the fresh-fetch path and for
cache-hit segments. -/
theorem reported_position_spec (names : List String) (u : String) :
    (u ∈ names → computePosition names u = some ((names.indexOf u : Int) + 1)) ∧
    (u ∉ names → computePosition names u = none) ∧
    (∀ (env : TrackEnv) (r : DatabaseRecord),
      parseCachedNames env r = some names →
      (cachedSegment env u r).position = computePosition names u) ∧
    (∀ (env : TrackEnv) (doc : Doc) (i : Nat) (seg : FlightSegment)
        (wi : WaitlistInfo) (d : String),
      parseWaitlistForSegment doc i = .ok (some wi) → wi.names = names →
      convertDateFormat env seg.date = .ok d →
      (processSegmentCached env u doc i seg).1.position = computePosition names u) := by
  refine ⟨?_, ?_, ?_, ?_⟩
  · intro hmem
    have hr := (jsIndexOf_spec names u).1 hmem
    have hne : (names.indexOf u : Int) ≠ -1 := by omega
    simp [computePosition, hr, hne]
  · intro hmem
    have hr := (jsIndexOf_spec names u).2 hmem
    simp [computePosition, hr]
  · intro env r hparse
    simp [cachedSegment, hparse]
  · intro env doc i seg wi d hparse hnames hdate
    simp [processSegmentCached, hparse, hdate, hnames]

/-- Witness for C4: in the list `["ABC/J", "XYZ/K"]`, user `"XYZ/K"` is
reported at position 2 and an absent user at null; a concrete cache record
with that list reports the same position. -/
theorem reported_position_spec_witness :
    computePosition ["ABC/J", "XYZ/K"] "XYZ/K" =
      some (((["ABC/J", "XYZ/K"].indexOf "XYZ/K" : Nat) : Int) + 1) ∧
    computePosition ["ABC/J", "XYZ/K"] "QQQ/Q" = none ∧
    (cachedSegment
      { now := 0, jsDateParse := fun _ => none,
        jsonParseNames := fun s =>
          if s = "[\"ABC/J\",\"XYZ/K\"]" then some ["ABC/J", "XYZ/K"] else none,
        latestWaitlistData := [], createPage := .ok (),
        navigation := fun _ => .ok (), needsVerification := false,
        challengeOutcomes := fun _ => .success, pageContent := none,
        saveFlightIds := fun _ => none }
      "XYZ/K"
      { flight_number := "100", flight_date := "2024-01-01",
        origin := some "SFO", destination := some "SEA",
        departure_time := some "10:00", arrival_time := some "12:00",
        waitlist_names := some "[\"ABC/J\",\"XYZ/K\"]",
        first_class_capacity := some 4, first_class_available := some 2,
        first_class_checked_in := some 1,
        snapshot_time := 0 }).position =
      computePosition ["ABC/J", "XYZ/K"] "XYZ/K" := by
  refine ⟨(reported_position_spec ["ABC/J", "XYZ/K"] "XYZ/K").1 (by decide),
    (reported_position_spec ["ABC/J", "XYZ/K"] "QQQ/Q").2.1 (by decide),
    (reported_position_spec ["ABC/J", "XYZ/K"] "XYZ/K").2.2.1 _ _ (by decide)⟩

/-! ## Freshness-based caching (C1) -/

theorem POST_limiter_unchanged (rl : RateLimiter) (req : PostRequest) :
    (POST rl req).2 = rl := by
  simp only [POST]
  split
  · rfl
  · split
    · rfl
    · rfl

/-- C1: with `forceRefresh = false`, when a persisted snapshot exists for
every segment of the flight/date with capture time within 5 minutes of now,
`trackWaitlist` returns the stored snapshots directly and its trace is the
single database read — no page, no navigation, no rate-limiter interaction;
moreover, across any sequence of requests to the route handler (which never
records a scrape) made at real clock instants, no response is ever a
rate-limit rejection. -/
theorem trackWaitlist_cache_fresh (env : TrackEnv)
    (flightNumber flightDate userName : String)
    (hconv : ∃ d, convertDateFormat env flightDate = .ok d)
    (hne : env.latestWaitlistData ≠ [])
    (hfresh : ∀ r ∈ env.latestWaitlistData,
      r.snapshot_time > env.now - 5 * 60 * 1000) :
    trackWaitlist env flightNumber flightDate userName false =
      ({ segments := env.latestWaitlistData.map (cachedSegment env userName),
         error := none }, [Event.dbRead]) ∧
    (∀ reqs : List PostRequest, (∀ req ∈ reqs, intervalMs ≤ req.env.now) →
      ∀ resp ∈ runPosts emptyRateLimiter reqs, ∀ w, resp ≠ .rateLimited w) := by
  constructor
  · obtain ⟨d, hd⟩ := hconv
    cases hl : env.latestWaitlistData with
    | nil => exact absurd hl hne
    | cons latest rest =>
      have hfr : latest.snapshot_time > env.now - 5 * 60 * 1000 :=
        hfresh latest (by rw [hl]; exact List.mem_cons_self _ _)
      simp only [trackWaitlist, cacheCheck, hd, hl, if_pos hfr, Bool.false_eq_true,
        if_false]
  · intro reqs hnow resp hresp w
    induction reqs with
    | nil => simp [runPosts] at hresp
    | cons req rest ih =>
      have hcan : ∀ k, emptyRateLimiter.canScrape k req.env.now = true := by
        intro k
        have := hnow req (List.mem_cons_self _ _)
        simp [RateLimiter.canScrape, emptyRateLimiter, mapGet]
        omega
      have hrl2 : (POST emptyRateLimiter req).2 = emptyRateLimiter :=
        POST_limiter_unchanged _ _
      simp only [runPosts, hrl2] at hresp
      rcases List.mem_cons.mp hresp with h | h
      · subst h
        simp only [POST]
        split
        · simp
        · simp [hcan]
      · exact ih (fun r hr => hnow r (List.mem_cons_of_mem _ hr)) h

/-- A concrete environment whose database holds a single fresh snapshot
(captured 100 seconds before now). -/
def cacheHitEnv : TrackEnv :=
  { now := 1000000000
    jsDateParse := fun _ => none
    jsonParseNames := fun _ => none
    latestWaitlistData :=
      [{ flight_number := "100", flight_date := "2024-01-01",
         origin := some "SFO", destination := some "SEA",
         departure_time := some "10:00", arrival_time := some "12:00",
         waitlist_names := none,
         first_class_capacity := some 4, first_class_available := some 2,
         first_class_checked_in := some 1,
         snapshot_time := 999900000 }]
    createPage := .ok ()
    navigation := fun _ => .ok ()
    needsVerification := false
    challengeOutcomes := fun _ => .success
    pageContent := none
    saveFlightIds := fun _ => none }

/-- Witness for C1 at `cacheHitEnv`: the call returns the mapped stored
snapshot with a database read as its only effect. -/
theorem trackWaitlist_cache_fresh_witness :
    trackWaitlist cacheHitEnv "100" "2024-01-01" "XYZ/K" false =
      ({ segments :=
           cacheHitEnv.latestWaitlistData.map (cachedSegment cacheHitEnv "XYZ/K"),
         error := none }, [Event.dbRead]) :=
  (trackWaitlist_cache_fresh cacheHitEnv "100" "2024-01-01" "XYZ/K"
    ⟨"2024-01-01", rfl⟩ (by decide) (by decide)).1

/-! ## Challenge failure aborts before persisting (C3) -/

/-- Counterexample for C3 as stated: with the source's default
`maxRetries = 2`, a challenge that fails every attempt is given up after
exactly 2 attempts — the handler never performs a 3rd attempt, so "fails on
all 3 of its attempts" does not describe this code. -/
theorem handlePressAndHold_two_attempts :
    handlePressAndHoldVerification (fun _ => AttemptOutcome.failure) 2 =
      (false, 2) ∧ (2 : Nat) ≠ 3 := by
  constructor
  · rfl
  · decide

/-- C3 (amended): if the press-and-hold challenge resolution fails on all of
its attempts (at most 2 with the source's default `maxRetries = 2`),
`handlePressAndHoldVerification` returns false and `trackWaitlist` aborts
the fetch with the verification-failure error before any `FlightSegment` or
`WaitlistSnapshot` is persisted. -/
theorem trackWaitlist_challenge_failure_no_persist (env : TrackEnv)
    (flightNumber flightDate userName : String)
    (hpage : env.createPage = .ok ())
    (hnav : env.navigation 0 = .ok ())
    (hver : env.needsVerification = true)
    (hfail : ∀ n, env.challengeOutcomes n = AttemptOutcome.failure) :
    (handlePressAndHoldVerification env.challengeOutcomes 2).1 = false ∧
    trackWaitlistV1 env flightNumber flightDate userName =
      ({ segments := [errorPlaceholder flightNumber flightDate
           "Failed to complete verification"],
         error := some "Failed to complete verification" },
       [Event.pageCreated, Event.networkFetch, Event.pageClosed]) ∧
    (∀ i, Event.dbSaveSegment i ∉ (trackWaitlistV1 env flightNumber flightDate userName).2 ∧
      Event.dbSaveSnapshot i ∉ (trackWaitlistV1 env flightNumber flightDate userName).2) := by
  have hpah : handlePressAndHoldVerification env.challengeOutcomes 2 = (false, 2) := by
    simp [handlePressAndHoldVerification, pahGo, hfail 0, hfail 1]
  have hmain : trackWaitlistV1 env flightNumber flightDate userName =
      ({ segments := [errorPlaceholder flightNumber flightDate
           "Failed to complete verification"],
         error := some "Failed to complete verification" },
       [Event.pageCreated, Event.networkFetch, Event.pageClosed]) := by
    simp [trackWaitlistV1, freshFetchV1, hpage, hnav, hver, hpah]
  refine ⟨by rw [hpah], hmain, ?_⟩
  intro i
  rw [hmain]
  constructor <;> simp

/-- A concrete environment whose page always demands verification and whose
challenge fails every attempt. -/
def challengeFailEnv : TrackEnv :=
  { now := 1000000000
    jsDateParse := fun _ => none
    jsonParseNames := fun _ => none
    latestWaitlistData := []
    createPage := .ok ()
    navigation := fun _ => .ok ()
    needsVerification := true
    challengeOutcomes := fun _ => .failure
    pageContent := none
    saveFlightIds := fun _ => some 1 }

/-- Witness for the amended C3 at `challengeFailEnv`. -/
theorem trackWaitlist_challenge_failure_no_persist_witness :
    (handlePressAndHoldVerification challengeFailEnv.challengeOutcomes 2).1 = false ∧
    trackWaitlistV1 challengeFailEnv "100" "2024-01-01" "XYZ/K" =
      ({ segments := [errorPlaceholder "100" "2024-01-01"
           "Failed to complete verification"],
         error := some "Failed to complete verification" },
       [Event.pageCreated, Event.networkFetch, Event.pageClosed]) ∧
    (∀ i, Event.dbSaveSegment i ∉
        (trackWaitlistV1 challengeFailEnv "100" "2024-01-01" "XYZ/K").2 ∧
      Event.dbSaveSnapshot i ∉
        (trackWaitlistV1 challengeFailEnv "100" "2024-01-01" "XYZ/K").2) :=
  trackWaitlist_challenge_failure_no_persist challengeFailEnv "100" "2024-01-01"
    "XYZ/K" rfl rfl rfl (fun _ => rfl)

/-! ## `trackWaitlist` never throws; error result and cleanup (C10) -/

/-- C10: the original `trackWaitlist` always produces a `WaitlistResult`
(the embedding is a total function — every internal failure is caught): when
the result carries an error message, its segment list is exactly the single
placeholder for the requested flight and date, whose position and
totalWaitlisted are null; and whenever a page was created, the trace ends
with the page being closed — in the success and failure cases alike. -/
theorem trackWaitlistV1_error_shape_and_cleanup (env : TrackEnv)
    (flightNumber flightDate userName : String) :
    (∀ msg, (trackWaitlistV1 env flightNumber flightDate userName).1.error = some msg →
      (trackWaitlistV1 env flightNumber flightDate userName).1.segments =
        [errorPlaceholder flightNumber flightDate msg]) ∧
    (∀ msg, (errorPlaceholder flightNumber flightDate msg).position = none ∧
      (errorPlaceholder flightNumber flightDate msg).totalWaitlisted = none ∧
      (errorPlaceholder flightNumber flightDate msg).error = some msg) ∧
    (env.createPage = .ok () →
      Event.pageClosed ∈ (trackWaitlistV1 env flightNumber flightDate userName).2) := by
  refine ⟨?_, ?_, ?_⟩
  · intro msg hmsg
    rcases hE : freshFetchV1 env userName with ⟨body, fevs⟩
    unfold trackWaitlistV1 at hmsg ⊢
    rw [hE] at hmsg ⊢
    cases body with
    | ok segs => simp at hmsg
    | error e =>
      simp at hmsg ⊢
      rw [hmsg]
  · intro msg
    exact ⟨rfl, rfl, rfl⟩
  · intro hpage
    unfold trackWaitlistV1
    rcases hE : freshFetchV1 env userName with ⟨body, fevs⟩
    rw [hpage]
    cases body with
    | ok segs => simp
    | error e => simp

/-- Witness for C10 at a concrete failing environment (navigation times
out): the result is the single placeholder and the page is closed. -/
theorem trackWaitlistV1_error_shape_and_cleanup_witness :
    (trackWaitlistV1
        { now := 0, jsDateParse := fun _ => none, jsonParseNames := fun _ => none,
          latestWaitlistData := [], createPage := .ok (),
          navigation := fun _ => .error "Navigation timeout of 30000 ms exceeded",
          needsVerification := false, challengeOutcomes := fun _ => .failure,
          pageContent := none, saveFlightIds := fun _ => none }
        "100" "2024-01-01" "XYZ/K").1.segments =
      [errorPlaceholder "100" "2024-01-01"
        "Navigation timeout of 30000 ms exceeded"] ∧
    Event.pageClosed ∈
      (trackWaitlistV1
        { now := 0, jsDateParse := fun _ => none, jsonParseNames := fun _ => none,
          latestWaitlistData := [], createPage := .ok (),
          navigation := fun _ => .error "Navigation timeout of 30000 ms exceeded",
          needsVerification := false, challengeOutcomes := fun _ => .failure,
          pageContent := none, saveFlightIds := fun _ => none }
        "100" "2024-01-01" "XYZ/K").2 := by
  obtain ⟨h1, _, h3⟩ := trackWaitlistV1_error_shape_and_cleanup
    { now := 0, jsDateParse := fun _ => none, jsonParseNames := fun _ => none,
      latestWaitlistData := [], createPage := .ok (),
      navigation := fun _ => .error "Navigation timeout of 30000 ms exceeded",
      needsVerification := false, challengeOutcomes := fun _ => .failure,
      pageContent := none, saveFlightIds := fun _ => none }
    "100" "2024-01-01" "XYZ/K"
  exact ⟨h1 "Navigation timeout of 30000 ms exceeded" rfl, h3 rfl⟩
